/-
Verification of the indicator and scoring engine of the stock-recommendation
repository (Korean swing-trade scanner scripts).

The development shallowly embeds the scoring, risk-assessment and selection
logic of the relevant source variants:

  * namespace V33  : tock_swing_trading_v3.3_complete.py
  * namespace V38  : stock_swing_trading_v3.8.py
  * namespace Swing: stock_swing_trading.py (v4.2.x)
  * namespace RecComplete : stock_recommendation_complete.py

Modelling conventions, used consistently below:

  * Python floats are modelled as exact rationals.  The pandas special
    values inf and NaN cannot be represented in the rationals, so functions
    whose float result can be non-finite return an Option, with `none`
    standing for the non-finite (or Python `None`) outcome; every such
    place is marked with a comment citing the float behaviour it encodes.
  * A pandas DataFrame of daily bars is a chronological `List Bar`.
  * Python `int(x)` on the nonnegative values concerned is `Int.floor`.
  * Python dict records are structures holding exactly the fields the
    claims touch; `round(x, k)` display rounding is dropped where it is the
    identity on the attainable values (noted at each use).
  * Python `sorted` and pandas nsmallest/nlargest are stable sorts, modelled
    by `List.mergeSort`, which is stable in the same sense.
-/
import Mathlib

namespace StockRec

/-- Risk tier enumeration: the Korean strings 낮음/안정 (low), 중간/보통
(medium), 높음/고위험 (high) used across the source variants. -/
inductive RiskLevel where
  | low
  | medium
  | high
deriving DecidableEq, Repr

/-- One daily price bar: a row of the OHLCV DataFrame. -/
structure Bar where
  close : ℚ
  high : ℚ
  low : ℚ
  volume : ℚ
deriving DecidableEq, Repr

/-- Last `n` elements of a list, as in a pandas `iloc[-n:]` slice. -/
def lastN (n : ℕ) (l : List ℚ) : List ℚ := l.drop (l.length - n)

/-- Consecutive close-to-close deltas, as produced by `Series.diff()`
(dropping the leading NaN). -/
def diffs : List ℚ → List ℚ
  | [] => []
  | [_] => []
  | a :: b :: t => (b - a) :: diffs (b :: t)

/-- Arithmetic mean of a list, as in `Series.mean()`.  On the empty list the
quotient degenerates to 0 where pandas would give NaN; every use below
either guards emptiness or works under a length hypothesis. -/
def mean (l : List ℚ) : ℚ := l.sum / (l.length : ℚ)

/-- Maximum of a list, as in `Series.max()` on a nonempty series. -/
def listMax : List ℚ → ℚ
  | [] => 0
  | a :: t => t.foldl max a

/-- Minimum of a list, as in `Series.min()` on a nonempty series. -/
def listMin : List ℚ → ℚ
  | [] => 0
  | a :: t => t.foldl min a

/-- Python truthiness of an optional float: `None` and `0.0` are falsy. -/
def truthy : Option ℚ → Bool
  | none => false
  | some v => v ≠ 0

/-- The pandas RSI(14) computation shared verbatim by all variants:
`delta = close.diff(); gain = delta.clip(lower=0).rolling(14).mean();`
`loss = (-delta).clip(lower=0).rolling(14).mean(); rs = gain/loss;`
`rsi = 100 - 100/(1+rs)`, evaluated at the last row.  Average gain over the
last 14 deltas. -/
def avgGain (closes : List ℚ) : ℚ :=
  ((lastN 14 (diffs closes)).map (fun d => max d 0)).sum / 14

/-- Average loss (absolute value of negative deltas) over the last 14
deltas of the close series. -/
def avgLoss (closes : List ℚ) : ℚ :=
  ((lastN 14 (diffs closes)).map (fun d => max (-d) 0)).sum / 14

/-- The last value of the pandas RSI series.  `none` models the NaN cases:
fewer than 15 closes (the rolling window is not full), or a window with
zero average gain and zero average loss (`0.0/0.0` is NaN).  When only the
average loss is zero, `gain/0.0` is `inf` in pandas and the RSI collapses
to exactly `100 - 100/(1+inf) = 100`. -/
def pandasRSI (closes : List ℚ) : Option ℚ :=
  if closes.length < 15 then none
  else if avgLoss closes = 0 then
    (if avgGain closes = 0 then none else some 100)
  else some (100 - 100 / (1 + avgGain closes / avgLoss closes))

/-- Candidate record: the projection, onto the fields the selection layer
reads, of the per-stock result dicts that the analysis workers emit.  The
`id` field stands for the ticker code. -/
structure Cand where
  id : ℕ
  score : ℚ
  trading_value : ℚ
  rsi : ℚ
  disparity : ℚ
  volume_ratio : ℚ
  rebound_strength : ℚ
  pbr : Option ℚ
  risk_score : ℤ
  risk_level : RiskLevel
deriving DecidableEq, Repr

/-- Comparator of `sorted(..., key=lambda x: x[score], reverse=True)`:
stable descending sort by composite score. -/
def scoreDescLE (a b : Cand) : Bool := decide (b.score ≤ a.score)

/-- Comparator of `sort(key=lambda x: (-x[score], -x[trading_value]))` in
stock_swing_trading.py main: descending score with descending
trading-value tie-break (ascending lexicographic order on negated keys). -/
def swingLE (a b : Cand) : Bool :=
  decide (b.score < a.score ∨ (a.score = b.score ∧ b.trading_value ≤ a.trading_value))

/-- Comparator for ascending sort by RSI. -/
def rsiAscLE (a b : Cand) : Bool := decide (a.rsi ≤ b.rsi)

/-- Comparator for ascending sort by disparity. -/
def disparityAscLE (a b : Cand) : Bool := decide (a.disparity ≤ b.disparity)

/-- Comparator for descending sort by volume ratio. -/
def volumeDescLE (a b : Cand) : Bool := decide (b.volume_ratio ≤ a.volume_ratio)

/-- Comparator for descending sort by rebound strength. -/
def reboundDescLE (a b : Cand) : Bool := decide (b.rebound_strength ≤ a.rebound_strength)

/-- Comparator for ascending sort by PBR (applied after filtering to
candidates whose PBR is present). -/
def pbrAscLE (a b : Cand) : Bool := decide (a.pbr.getD 0 ≤ b.pbr.getD 0)

end StockRec

namespace StockRec.V33

/-- Configuration constant MIN_TRADING_VALUE of
tock_swing_trading_v3.3_complete.py: 500 million KRW. -/
def MIN_TRADING_VALUE : ℚ := 500000000

/-- Configuration constant TARGET_COUNT: size of the Top-N list. -/
def TARGET_COUNT : ℕ := 30

/-- calculate_rsi of tock_swing_trading_v3.3_complete.py: the shared pandas
RSI with two fallbacks to the neutral 50.0, one for series shorter than
period+1 and one for a NaN final value (`pd.isna` check).  Both fallback
paths are exactly the `none` cases of `pandasRSI`. -/
def calculate_rsi (prices : List ℚ) : ℚ := (pandasRSI prices).getD 50

/-- calculate_disparity: last close over the 20-day moving average, as a
percentage; series shorter than 20 fall back to the neutral 100.0. -/
def calculate_disparity (prices : List ℚ) : ℚ :=
  if prices.length < 20 then 100
  else prices.getLastD 0 / mean (lastN 20 prices) * 100

/-- calculate_volume_ratio: mean of the last 5 volumes over the mean of the
last 20, as a percentage; series shorter than 20, and a zero 20-day
average, both fall back to the neutral 100.0. -/
def calculate_volume_ratio (volumes : List ℚ) : ℚ :=
  if volumes.length < 20 then 100
  else
    let recent_avg := mean (lastN 5 volumes)
    let period_avg := mean (lastN 20 volumes)
    if period_avg = 0 then 100 else recent_avg / period_avg * 100

/-- calculate_rsi_score (30-point weight).  The float literals 0.67 and
0.33 of the source are the exact rationals 67/100 and 33/100 here. -/
def calculate_rsi_score (rsi : ℚ) : ℚ :=
  if 20 ≤ rsi ∧ rsi ≤ 25 then 30
  else if 25 < rsi ∧ rsi ≤ 35 then 30 * (67/100)
  else if 35 < rsi ∧ rsi ≤ 45 then 30 * (33/100)
  else 0

/-- calculate_disparity_score (25-point weight). -/
def calculate_disparity_score (disparity : ℚ) : ℚ :=
  if 80 ≤ disparity ∧ disparity ≤ 90 then 25
  else if 90 < disparity ∧ disparity ≤ 95 then 25 * (8/10)
  else if 95 < disparity ∧ disparity ≤ 100 then 25 * (4/10)
  else 0

/-- calculate_volume_score (25-point weight). -/
def calculate_volume_score (volume_ratio : ℚ) : ℚ :=
  if 150 ≤ volume_ratio ∧ volume_ratio ≤ 300 then 25
  else if 120 ≤ volume_ratio ∧ volume_ratio < 150 then 25 * (8/10)
  else if 300 ≤ volume_ratio then 25 * (6/10)
  else 0

/-- calculate_pbr_score (20-point weight). -/
def calculate_pbr_score (pbr : ℚ) : ℚ :=
  if pbr ≤ 0 then 0
  else if 3/10 ≤ pbr ∧ pbr ≤ 7/10 then 20
  else if 7/10 < pbr ∧ pbr ≤ 1 then 20 * (3/4)
  else if 0 < pbr ∧ pbr < 3/10 then 20 * (1/2)
  else 0

/-- The composite total of analyze_stock:
`total_score = rsi_score + disparity_score + volume_score + pbr_score`. -/
def total_of (rsi disparity volume_ratio pbr : ℚ) : ℚ :=
  calculate_rsi_score rsi + calculate_disparity_score disparity +
    calculate_volume_score volume_ratio + calculate_pbr_score pbr

/-- The recent-surge predicate of assess_risk: over the last 20 closes,
positive minimum and a high/low spread above 20 percent. -/
def surge20 (closes : List ℚ) : Bool :=
  decide (20 ≤ closes.length ∧ 0 < listMin (lastN 20 closes) ∧
    (listMax (lastN 20 closes) - listMin (lastN 20 closes)) / listMin (lastN 20 closes) > 1/5)

/-- Number of risk factors accumulated by assess_risk: small market cap
(below 50 billion KRW), low price (below 5000 KRW), recent surge. -/
def risk_factor_count (market_cap current_price : ℤ) (closes : List ℚ) : ℕ :=
  (if market_cap < 50000000000 then 1 else 0) +
    (if current_price < 5000 then 1 else 0) +
    (if surge20 closes then 1 else 0)

/-- The final branch of assess_risk: 0 factors map to low, 1 to medium,
anything else (2 or more) to high. -/
def risk_tier_of_count (n : ℕ) : RiskLevel :=
  if n = 0 then .low else if n = 1 then .medium else .high

/-- assess_risk of tock_swing_trading_v3.3_complete.py. -/
def assess_risk (market_cap current_price : ℤ) (closes : List ℚ) : RiskLevel :=
  risk_tier_of_count (risk_factor_count market_cap current_price closes)

end StockRec.V33

namespace StockRec.V33

/-- The result dict of analyze_stock, restricted to the fields the claims
read.  The source stores `round(x, 1)` of each score component; on the
attainable component values (multiples of one tenth) that rounding is the
identity, so the exact values are stored.  The `pbr` field is `none` where
the source displays the string N/A (for a nonpositive PBR). -/
structure Result where
  score : ℚ
  rsi : ℚ
  disparity : ℚ
  volume_ratio : ℚ
  pbr : Option ℚ
  market_cap : ℤ
  current_price : ℤ
  risk_level : RiskLevel
  ret_5d : ℚ
  from_20d_low : ℚ
  rsi_score : ℚ
  disparity_score : ℚ
  volume_score : ℚ
  pbr_score : ℚ
deriving DecidableEq, Repr

/-- analyze_stock of tock_swing_trading_v3.3_complete.py.  Inputs are the
bar history fetched for the ticker, the market cap (`market_caps.get(t, 0)`,
so 0 when absent) and the PBR (`pbr_data.get(t, 0)`).  Returns `none` on
each of the four rejection paths of the source: short history, missing
market cap, trading value below the liquidity floor, total score below 40.
Python `int(current_price)` is floor on these positive prices. -/
def analyze_stock (bars : List Bar) (market_cap : ℤ) (pbr : ℚ) : Option Result :=
  if bars.length < 30 then none
  else if market_cap = 0 then none
  else
    let closes := bars.map (·.close)
    let volumes := bars.map (·.volume)
    let avg_trading_value := mean ((bars.drop (bars.length - 20)).map (fun b => b.close * b.volume))
    if avg_trading_value < MIN_TRADING_VALUE then none
    else
      let rsi := calculate_rsi closes
      let disparity := calculate_disparity closes
      let volume_ratio := calculate_volume_ratio volumes
      let rsi_score := calculate_rsi_score rsi
      let disparity_score := calculate_disparity_score disparity
      let volume_score := calculate_volume_score volume_ratio
      let pbr_score := calculate_pbr_score pbr
      let total_score := rsi_score + disparity_score + volume_score + pbr_score
      if total_score < 40 then none
      else
        let current_price : ℤ := ⌊closes.getLastD 0⌋
        let price_5d_ago := closes.getD (closes.length - 6) 0
        let min_20d := listMin (lastN 20 closes)
        some {
          score := total_score
          rsi := rsi
          disparity := disparity
          volume_ratio := volume_ratio
          pbr := if 0 < pbr then some pbr else none
          market_cap := market_cap
          current_price := current_price
          risk_level := assess_risk market_cap current_price closes
          ret_5d := if 6 ≤ closes.length ∧ 0 < price_5d_ago then
              ((current_price : ℚ) / price_5d_ago - 1) * 100 else 0
          from_20d_low := if 20 ≤ closes.length ∧ 0 < min_20d then
              ((current_price : ℚ) / min_20d - 1) * 100 else 0
          rsi_score := rsi_score
          disparity_score := disparity_score
          volume_score := volume_score
          pbr_score := pbr_score }

/-- select_recommendations of tock_swing_trading_v3.3_complete.py: sort all
results descending by score (stable), keep the first TARGET_COUNT as the
Top-30, then split the Top-30 into the four display groups.  The returned
tuple is (top_30, high_score, medium_score, conservative, aggressive). -/
def select_recommendations (all_results : List Cand) :
    List Cand × List Cand × List Cand × List Cand × List Cand :=
  let sorted_results := all_results.mergeSort scoreDescLE
  let top_30 := sorted_results.take TARGET_COUNT
  (top_30,
   top_30.filter (fun r => decide (70 ≤ r.score)),
   top_30.filter (fun r => decide (60 ≤ r.score ∧ r.score < 70)),
   top_30.filter (fun r => decide (r.score < 60 ∧ r.risk_level = .low)),
   top_30.filter (fun r => decide (r.score < 60 ∧ r.risk_level ≠ .low)))

end StockRec.V33

namespace StockRec.V38

/-- calculate_rsi of stock_swing_trading_v3.8.py: the shared pandas RSI
with no fallback.  `none` models both the Python None of the exception
path (empty history) and a NaN final value, neither of which is a valid
RSI number downstream. -/
def calculate_rsi (closes : List ℚ) : Option ℚ := pandasRSI closes

/-- calculate_volume_ratio of stock_swing_trading_v3.8.py: mean of the last
5 volumes over the mean of the last `period` (20) volumes, as a
percentage.  There is no zero check in this variant: with a zero long
average the float quotient is non-finite (inf, or NaN when the short
average is zero as well), modelled as `none`; an empty history gives NaN
means, also `none`. -/
def calculate_volume_ratio (volumes : List ℚ) : Option ℚ :=
  if volumes = [] then none
  else
    let recent_volume := mean (lastN 5 volumes)
    let avg_volume := mean (lastN 20 volumes)
    if avg_volume = 0 then none
    else some (recent_volume / avg_volume * 100)

/-- calculate_pbr of stock_swing_trading_v3.8.py: keep the provider value
only when it is truthy and positive. -/
def calculate_pbr (priceToBook : Option ℚ) : Option ℚ :=
  match priceToBook with
  | none => none
  | some v => if 0 < v then some v else none

/-- calculate_5day_return of stock_swing_trading_v3.8.py. -/
def calculate_5day_return (closes : List ℚ) : Option ℚ :=
  if closes.length < 6 then none
  else some ((closes.getLastD 0 - closes.getD (closes.length - 6) 0) /
    closes.getD (closes.length - 6) 0 * 100)

/-- calculate_rebound_strength of stock_swing_trading_v3.8.py: position of
the last close inside the 20-day close band. -/
def calculate_rebound_strength (closes : List ℚ) : Option ℚ :=
  if closes.length < 20 then none
  else
    let current_price := closes.getLastD 0
    let min_price_20d := listMin (lastN 20 closes)
    let max_price_20d := listMax (lastN 20 closes)
    if max_price_20d = min_price_20d then some 0
    else some ((current_price - min_price_20d) / (max_price_20d - min_price_20d) * 100)

/-- RSI bucket of calculate_score (30-point weight): applied only when the
argument is not None, else the component is 0. -/
def rsi_points : Option ℚ → ℤ
  | none => 0
  | some rsi =>
      if rsi ≤ 30 then 30 else if rsi ≤ 40 then 25 else if rsi ≤ 50 then 15
      else if rsi ≤ 60 then 10 else 5

/-- Disparity bucket of calculate_score (20-point weight). -/
def disp_points : Option ℚ → ℤ
  | none => 0
  | some d =>
      if d ≤ 95 then 20 else if d ≤ 98 then 15 else if d ≤ 102 then 10
      else if d ≤ 105 then 5 else 2

/-- Volume bucket of calculate_score (15-point weight). -/
def vol_points : Option ℚ → ℤ
  | none => 0
  | some v =>
      if 150 ≤ v then 15 else if 120 ≤ v then 12 else if 100 ≤ v then 8
      else if 80 ≤ v then 5 else 2

/-- PBR bucket of calculate_score (15-point weight). -/
def pbr_points : Option ℚ → ℤ
  | none => 0
  | some p =>
      if p ≤ 1/2 then 15 else if p ≤ 1 then 12 else if p ≤ 3/2 then 8
      else if p ≤ 2 then 5 else 2

/-- Five-day-return bucket of calculate_score (10-point weight). -/
def ret_points : Option ℚ → ℤ
  | none => 0
  | some r =>
      if 10 ≤ r then 10 else if 5 ≤ r then 8 else if 0 ≤ r then 5
      else if -5 ≤ r then 3 else 1

/-- Rebound bucket of calculate_score (10-point weight). -/
def reb_points : Option ℚ → ℤ
  | none => 0
  | some r =>
      if 80 ≤ r then 10 else if 60 ≤ r then 8 else if 40 ≤ r then 5
      else if 20 ≤ r then 3 else 1

/-- The details dict built by calculate_score. -/
structure ScoreDetails where
  rsi_score : ℤ
  disp_score : ℤ
  vol_score : ℤ
  pbr_score : ℤ
  ret_score : ℤ
  reb_score : ℤ
deriving DecidableEq, Repr

/-- calculate_score of stock_swing_trading_v3.8.py: accumulates the six
bucket components (each contributing 0 when its indicator is None) and
records them in the details dict.  Returns (score, details). -/
def calculate_score (rsi disparity volume_ratio pbr return_5d rebound : Option ℚ) :
    ℤ × ScoreDetails :=
  let details : ScoreDetails := {
    rsi_score := rsi_points rsi
    disp_score := disp_points disparity
    vol_score := vol_points volume_ratio
    pbr_score := pbr_points pbr
    ret_score := ret_points return_5d
    reb_score := reb_points rebound }
  (details.rsi_score + details.disp_score + details.vol_score + details.pbr_score +
    details.ret_score + details.reb_score, details)

end StockRec.V38

namespace StockRec.Swing

/-- RSI component of analyze_stock_worker (30 points max).  The argument is
the last value of the pandas RSI series; a NaN value (`none`) fails every
comparison of the Python conditional chain, leaving the component 0. -/
def rsi_score : Option ℚ → ℤ
  | none => 0
  | some rsi => if rsi < 30 then 30 else if rsi < 40 then 20 else if rsi < 50 then 10 else 0

/-- Disparity component of analyze_stock_worker (20 points max). -/
def disparity_score (disparity : ℚ) : ℤ :=
  if disparity < 95 then 20 else if disparity < 98 then 15 else if disparity < 100 then 10 else 0

/-- Volume component of analyze_stock_worker (15 points max). -/
def volume_score (volume_ratio : ℚ) : ℤ :=
  if 3/2 ≤ volume_ratio then 15 else if 6/5 ≤ volume_ratio then 10
  else if 1 ≤ volume_ratio then 5 else 0

/-- PBR component of analyze_stock_worker (15 points max): stays 0 when the
PBR is None or falsy (0.0). -/
def pbr_score : Option ℚ → ℤ
  | none => 0
  | some v => if v = 0 then 0 else if v < 1 then 15 else if v < 3/2 then 10
      else if v < 2 then 5 else 0

/-- Five-day-return component of analyze_stock_worker (10 points max). -/
def returns_score (returns_5d : ℚ) : ℤ :=
  if -5 ≤ returns_5d ∧ returns_5d ≤ 0 then 10
  else if -10 ≤ returns_5d ∧ returns_5d < -5 then 5 else 0

/-- Rebound component of analyze_stock_worker (10 points max). -/
def rebound_score (rebound_strength : ℚ) : ℤ :=
  if 5 ≤ rebound_strength then 10 else if 3 ≤ rebound_strength then 5 else 0

/-- The sum line of analyze_stock_worker:
`total_score = rsi_score + disparity_score + volume_score + pbr_score
+ returns_score + rebound_score`. -/
def raw_total (rsi : Option ℚ) (disparity volume_ratio : ℚ) (pbr : Option ℚ)
    (returns_5d rebound_strength : ℚ) : ℤ :=
  rsi_score rsi + disparity_score disparity + volume_score volume_ratio +
    pbr_score pbr + returns_score returns_5d + rebound_score rebound_strength

/-- The v4.2.11 conservative-investor correction: 2 points of penalty per
percent of disparity above 100, truncated to an integer.  Python `int` on
this positive value is the floor. -/
def penalty (disparity : ℚ) : ℤ :=
  if 100 < disparity then ⌊(disparity - 100) * 2⌋ else 0

/-- The composite score that analyze_stock_worker finally stores: the raw
six-component sum, diminished by the disparity penalty and clamped at 0
whenever the disparity exceeds 100. -/
def total_score (rsi : Option ℚ) (disparity volume_ratio : ℚ) (pbr : Option ℚ)
    (returns_5d rebound_strength : ℚ) : ℤ :=
  if 100 < disparity then
    max 0 (raw_total rsi disparity volume_ratio pbr returns_5d rebound_strength -
      penalty disparity)
  else raw_total rsi disparity volume_ratio pbr returns_5d rebound_strength

/-- Truthiness test `o and c < o` of the Python risk checks. -/
def gtTruthy (o : Option ℚ) (c : ℚ) : Bool :=
  match o with
  | none => false
  | some v => decide (v ≠ 0 ∧ c < v)

/-- Truthiness test `o and o < c` of the Python risk checks. -/
def ltTruthy (o : Option ℚ) (c : ℚ) : Bool :=
  match o with
  | none => false
  | some v => decide (v ≠ 0 ∧ v < c)

/-- Input of analyze_stock_worker, with the external collaborators already
resolved: the yfinance bar history, the two name checks of the risk logic,
and the fundamentals as finally obtained from DART with yfinance/KRX
fallback. -/
structure Input where
  bars : List Bar
  name_suspended : Bool
  name_managed : Bool
  equity : Option ℚ
  net_income : Option ℚ
  shares : Option ℚ
deriving DecidableEq, Repr

/-- The result dict of analyze_stock_worker, restricted to the fields the
claims read. -/
structure Result where
  price : ℚ
  score : ℤ
  trading_value : ℚ
  rsi : Option ℚ
  disparity : ℚ
  volume_ratio : ℚ
  pbr : Option ℚ
  rebound_strength : ℚ
  risk_score : ℤ
  risk_level : RiskLevel
deriving DecidableEq, Repr

/-- analyze_stock_worker of stock_swing_trading.py (v4.2.x).  Returns
`none` when fewer than 20 bars are available (`df.empty or len(df) < 20`);
otherwise scores the stock.  The volume average is over `iloc[-20:-1]`,
the 19 bars preceding the last one.  Missing fundamentals leave the PBR
`none` and its component 0; they never reject the stock. -/
def analyze_stock_worker (i : Input) : Option Result :=
  if i.bars.length < 20 then none
  else
    let closes := i.bars.map (·.close)
    let volumes := i.bars.map (·.volume)
    let current_price := closes.getLastD 0
    let volume_avg := mean (lastN 19 volumes.dropLast)
    let current_volume := volumes.getLastD 0
    let current_rsi := pandasRSI closes
    let ma20 := mean (lastN 20 closes)
    let disparity := current_price / ma20 * 100
    let volume_ratio := if 0 < volume_avg then current_volume / volume_avg else 0
    let pbr_value : Option ℚ :=
      match i.equity, i.shares with
      | some e, some s =>
          if e ≠ 0 ∧ s ≠ 0 ∧ 0 < s then
            (if 0 < e / s then some (current_price / (e / s)) else none)
          else none
      | _, _ => none
    let returns_5d := if 6 ≤ closes.length then
        (closes.getLastD 0 - closes.getD (closes.length - 6) 0) /
          closes.getD (closes.length - 6) 0 * 100
      else 0
    let low_20d := listMin (lastN 20 (i.bars.map (·.low)))
    let high_20d := listMax (lastN 20 (i.bars.map (·.high)))
    let rebound_strength := if 0 < low_20d then (current_price - low_20d) / low_20d * 100 else 0
    let volatility_range := if 0 < low_20d then (high_20d - low_20d) / low_20d * 100 else 0
    let risk_score : ℤ :=
      (if i.name_suspended then 100 else if current_volume = 0 then 100 else 0) +
      (if i.name_managed then 80 else 0) +
      (if gtTruthy pbr_value 5 then 80 else if ltTruthy i.equity 0 then 80 else 0) +
      (if ltTruthy i.net_income 0 then 50 else 0) +
      (if 50 < volatility_range then 25 else 0) +
      (if 30 < rebound_strength then 25 else 0) +
      (if 5 < volume_ratio then 20 else 0) +
      (if 120 < disparity then 15 else 0) +
      (if gtTruthy pbr_value 3 then 20 else 0)
    some {
      price := current_price
      score := total_score current_rsi disparity volume_ratio pbr_value returns_5d rebound_strength
      trading_value := current_price * current_volume
      rsi := current_rsi
      disparity := disparity
      volume_ratio := volume_ratio
      pbr := pbr_value
      rebound_strength := rebound_strength
      risk_score := risk_score
      risk_level := if 70 ≤ risk_score then .high else if 30 ≤ risk_score then .medium else .low }

/-- The admitted pool of main: workers whose analysis succeeded with a
composite score of at least 50. -/
def valid_results (results : List (Option Result)) : List Result :=
  (results.filterMap id).filter (fun r => decide (50 ≤ r.score))

/-- The Top-30 of main: the admitted pool sorted by descending score with
descending trading-value tie-break, first 30 entries. -/
def top_stocks_of (valid : List Cand) : List Cand :=
  (valid.mergeSort swingLE).take 30

/-- Aggressive investor card of generate_html: the Top-30 re-sorted by
descending score, first 5. -/
def aggressive_stocks (top_stocks : List Cand) : List Cand :=
  ((top_stocks.take 30).mergeSort scoreDescLE).take 5

/-- Balanced investor card of generate_html: medium-risk members of the
Top-30 (risk score 30 to 69) by descending score, backfilled from the
low-risk members not already chosen when fewer than 5 exist. -/
def balanced_stocks (top_stocks : List Cand) : List Cand :=
  let balanced_filtered := (top_stocks.take 30).filter
    (fun s => decide (30 ≤ s.risk_score ∧ s.risk_score < 70))
  let primary := (balanced_filtered.mergeSort scoreDescLE).take 5
  if primary.length < 5 then
    let low_risk := (top_stocks.take 30).filter
      (fun s => decide (s.risk_score < 30 ∧ s ∉ primary))
    primary ++ (low_risk.mergeSort scoreDescLE).take (5 - primary.length)
  else primary

/-- Conservative investor card of generate_html: low-risk members of the
Top-30 (risk score below 30) by descending score, backfilled from the
medium-risk band 30 to 49 not already chosen when fewer than 5 exist. -/
def conservative_stocks (top_stocks : List Cand) : List Cand :=
  let conservative_filtered := (top_stocks.take 30).filter
    (fun s => decide (s.risk_score < 30))
  let primary := (conservative_filtered.mergeSort scoreDescLE).take 5
  if primary.length < 5 then
    let medium_risk := (top_stocks.take 30).filter
      (fun s => decide (30 ≤ s.risk_score ∧ s.risk_score < 50 ∧ s ∉ primary))
    primary ++ (medium_risk.mergeSort scoreDescLE).take (5 - primary.length)
  else primary

/-- RSI leaderboard of generate_html (v4.2.17): the received `top_stocks`
list (the Top-30 of main, not the full admitted pool) sorted ascending by
RSI, first 5. -/
def rsi_top5 (top_stocks : List Cand) : List Cand :=
  (top_stocks.mergeSort rsiAscLE).take 5

/-- Disparity leaderboard of generate_html: ascending by disparity. -/
def disparity_top5 (top_stocks : List Cand) : List Cand :=
  (top_stocks.mergeSort disparityAscLE).take 5

/-- Volume leaderboard of generate_html: descending by volume ratio. -/
def volume_top5 (top_stocks : List Cand) : List Cand :=
  (top_stocks.mergeSort volumeDescLE).take 5

/-- Rebound leaderboard of generate_html: descending by rebound strength. -/
def rebound_top5 (top_stocks : List Cand) : List Cand :=
  (top_stocks.mergeSort reboundDescLE).take 5

/-- PBR leaderboard of generate_html: only candidates with a truthy PBR
(`if s.get(pbr)`), ascending by PBR. -/
def pbr_top5 (top_stocks : List Cand) : List Cand :=
  ((top_stocks.filter (fun s => truthy s.pbr)).mergeSort pbrAscLE).take 5

end StockRec.Swing

namespace StockRec.RecComplete

/-- RSI bucket of calculate_technical_indicators (30 points): a NaN RSI
(`none`, flat 14-delta window) fails every comparison and adds nothing. -/
def rsi_points : Option ℚ → ℤ
  | none => 0
  | some r => if r ≤ 30 then 30 else if r ≤ 40 then 20 else if r ≤ 50 then 10 else 0

/-- Disparity bucket of calculate_technical_indicators (25 points). -/
def disparity_points (d : ℚ) : ℤ :=
  if d ≤ 95 then 25 else if d ≤ 98 then 15 else if d ≤ 100 then 5 else 0

/-- Volume bucket of calculate_technical_indicators (25 points). -/
def volume_points (v : ℚ) : ℤ :=
  if 150 ≤ v then 25 else if 120 ≤ v then 15 else if 100 ≤ v then 5 else 0

/-- PBR bucket of calculate_technical_indicators (20 points).  Note the
source chain gives 15 points to a nonpositive PBR, because only the first
branch requires positivity. -/
def pbr_points (p : ℚ) : ℤ :=
  if 0 < p ∧ p ≤ 8/10 then 20 else if p ≤ 1 then 15 else if p ≤ 3/2 then 10 else 0

/-- Risk-level branch of calculate_technical_indicators: low by default,
high from 2 factors, medium at exactly 1. -/
def risk_level_of_count (n : ℕ) : RiskLevel :=
  if 2 ≤ n then .high else if n = 1 then .medium else .low

/-- The result dict of calculate_technical_indicators, restricted to the
fields the claims read.  Python `int(current_price)` is floor on these
positive prices; `round(x, 2)` display rounding is dropped. -/
structure Result where
  score : ℤ
  rsi : Option ℚ
  disparity : ℚ
  volume_ratio : ℚ
  pbr : ℚ
  current_price : ℤ
  risk_level : RiskLevel
deriving DecidableEq, Repr

/-- calculate_technical_indicators of stock_recommendation_complete.py.
Inputs: the bar history, the PBR from the fundamentals snapshot (`none`
when `stock.get_market_fundamental` came back empty) and the market cap
(`none` when `stock.get_market_cap` came back empty).  Histories shorter
than 20 bars are rejected, and so is an instrument with an empty
fundamentals snapshot (`if fundamental.empty: return None`) — the
fundamentals check is hoisted above the pure indicator computations it
cannot depend on. -/
def calculate_technical_indicators (bars : List Bar) (fundamental : Option ℚ)
    (market_cap : Option ℚ) : Option Result :=
  if bars.length < 20 then none
  else
    match fundamental with
    | none => none
    | some pbr =>
      let closes := bars.map (·.close)
      let current_price := closes.getLastD 0
      let current_rsi := pandasRSI closes
      let ma20 := mean (lastN 20 closes)
      let disparity := current_price / ma20 * 100
      let volumes := bars.map (·.volume)
      let avg_volume := mean (lastN 20 volumes)
      let volume_ratio := volumes.getLastD 0 / avg_volume * 100
      let score := rsi_points current_rsi + disparity_points disparity +
        volume_points volume_ratio + pbr_points pbr
      let risk_factor_count : ℕ :=
        (if pbr < 1/2 then 1 else 0) +
        (match market_cap with
         | some cap => if cap / 100000000 < 1000 then 1 else 0
         | none => 0)
      some {
        score := score
        rsi := current_rsi
        disparity := disparity
        volume_ratio := volume_ratio
        pbr := pbr
        current_price := ⌊current_price⌋
        risk_level := risk_level_of_count risk_factor_count }

/-- The sort of scan_all_stocks, relationally.  The source sorts the
scanned DataFrame by descending composite score with `df.sort_values` on
the score column, whose pandas default kind is quicksort — an UNSTABLE
sort — so the program fixes no order among equal scores, and when a tie
class straddles rank 30 even the Top-30 membership is not determined.
The model therefore commits to nothing beyond what every admissible
outcome satisfies: `out` is an admissible result of the sort on `l`
exactly when it is a permutation of `l` that is non-increasing in the
composite score.  Top-30 of select_recommendations is then `df.head(30)`,
that is `out.take 30`, of an admissible outcome. -/
def sort_values_desc (l out : List Cand) : Prop :=
  List.Perm out l ∧ List.Pairwise (fun x y : Cand => y.score ≤ x.score) out

/-- RSI leaderboard of select_recommendations: `df.nsmallest(5, RSI)` over
the whole scanned set (not the Top-30). -/
def rsi_top5 (df : List Cand) : List Cand := (df.mergeSort rsiAscLE).take 5

/-- Disparity leaderboard of select_recommendations: `nsmallest(5, 이격도)`
over the whole scanned set. -/
def disparity_top5 (df : List Cand) : List Cand := (df.mergeSort disparityAscLE).take 5

/-- Volume leaderboard of select_recommendations: `nlargest(5, 거래량비율)`
over the whole scanned set. -/
def volume_top5 (df : List Cand) : List Cand := (df.mergeSort volumeDescLE).take 5

end StockRec.RecComplete

namespace StockRec

/-- Helper for building the concrete candidate lists used in the concrete
evaluations below: a candidate determined by id, score, trading value, rsi
and risk score, with neutral values elsewhere. -/
def mkC (i : ℕ) (score tv rsi : ℚ) (risk : ℤ) : Cand :=
  { id := i, score := score, trading_value := tv, rsi := rsi, disparity := 100,
    volume_ratio := 1, rebound_strength := 0, pbr := none, risk_score := risk,
    risk_level := .low }

/-- Concrete admitted pool of 31 candidates probing the leaderboard base
set: scores strictly descending (100 down to 71, then 1), rsi values
ascending 1..30 among the first thirty, while the lowest-score candidate
(id 30) holds the strictly smallest rsi 0. -/
def c5_list : List Cand :=
  [
   mkC 0 100 0 1 0,
   mkC 1 99 0 2 0,
   mkC 2 98 0 3 0,
   mkC 3 97 0 4 0,
   mkC 4 96 0 5 0,
   mkC 5 95 0 6 0,
   mkC 6 94 0 7 0,
   mkC 7 93 0 8 0,
   mkC 8 92 0 9 0,
   mkC 9 91 0 10 0,
   mkC 10 90 0 11 0,
   mkC 11 89 0 12 0,
   mkC 12 88 0 13 0,
   mkC 13 87 0 14 0,
   mkC 14 86 0 15 0,
   mkC 15 85 0 16 0,
   mkC 16 84 0 17 0,
   mkC 17 83 0 18 0,
   mkC 18 82 0 19 0,
   mkC 19 81 0 20 0,
   mkC 20 80 0 21 0,
   mkC 21 79 0 22 0,
   mkC 22 78 0 23 0,
   mkC 23 77 0 24 0,
   mkC 24 76 0 25 0,
   mkC 25 75 0 26 0,
   mkC 26 74 0 27 0,
   mkC 27 73 0 28 0,
   mkC 28 72 0 29 0,
   mkC 29 71 0 30 0,
   mkC 30 1 0 0 0]

lemma rsi_score_bounds (o : Option ℚ) :
    0 ≤ Swing.rsi_score o ∧ Swing.rsi_score o ≤ 30 := by
  cases o with
  | none => simp [Swing.rsi_score]
  | some r =>
    simp only [Swing.rsi_score]
    split_ifs <;> norm_num

lemma disparity_score_bounds (d : ℚ) :
    0 ≤ Swing.disparity_score d ∧ Swing.disparity_score d ≤ 20 := by
  simp only [Swing.disparity_score]
  split_ifs <;> norm_num

lemma volume_score_bounds (v : ℚ) :
    0 ≤ Swing.volume_score v ∧ Swing.volume_score v ≤ 15 := by
  simp only [Swing.volume_score]
  split_ifs <;> norm_num

lemma pbr_score_bounds (o : Option ℚ) :
    0 ≤ Swing.pbr_score o ∧ Swing.pbr_score o ≤ 15 := by
  cases o with
  | none => simp [Swing.pbr_score]
  | some r =>
    simp only [Swing.pbr_score]
    split_ifs <;> norm_num

lemma returns_score_bounds (r : ℚ) :
    0 ≤ Swing.returns_score r ∧ Swing.returns_score r ≤ 10 := by
  simp only [Swing.returns_score]
  split_ifs <;> norm_num

lemma rebound_score_bounds (r : ℚ) :
    0 ≤ Swing.rebound_score r ∧ Swing.rebound_score r ≤ 10 := by
  simp only [Swing.rebound_score]
  split_ifs <;> norm_num

lemma raw_total_bounds (rsi : Option ℚ) (d v : ℚ) (pbr : Option ℚ) (r5 rb : ℚ) :
    0 ≤ Swing.raw_total rsi d v pbr r5 rb ∧ Swing.raw_total rsi d v pbr r5 rb ≤ 100 := by
  have h1 := rsi_score_bounds rsi
  have h2 := disparity_score_bounds d
  have h3 := volume_score_bounds v
  have h4 := pbr_score_bounds pbr
  have h5 := returns_score_bounds r5
  have h6 := rebound_score_bounds rb
  unfold Swing.raw_total
  constructor <;> omega

lemma penalty_nonneg (d : ℚ) : 0 ≤ Swing.penalty d := by
  unfold Swing.penalty
  split_ifs with h
  · have : (0:ℚ) ≤ (d - 100) * 2 := by nlinarith
    exact Int.le_floor.mpr (by exact_mod_cast this)
  · exact le_refl 0

lemma total_score_bounds (rsi : Option ℚ) (d v : ℚ) (pbr : Option ℚ) (r5 rb : ℚ) :
    0 ≤ Swing.total_score rsi d v pbr r5 rb ∧ Swing.total_score rsi d v pbr r5 rb ≤ 100 := by
  have hr := raw_total_bounds rsi d v pbr r5 rb
  have hp := penalty_nonneg d
  unfold Swing.total_score
  split_ifs with h
  · constructor
    · exact le_max_left 0 _
    · have : Swing.raw_total rsi d v pbr r5 rb - Swing.penalty d ≤ 100 := by omega
      omega
  · exact hr

lemma v38_points_bounds (rsi disparity volume_ratio pbr return_5d rebound : Option ℚ) :
    0 ≤ V38.rsi_points rsi ∧ V38.rsi_points rsi ≤ 30 ∧
    0 ≤ V38.disp_points disparity ∧ V38.disp_points disparity ≤ 20 ∧
    0 ≤ V38.vol_points volume_ratio ∧ V38.vol_points volume_ratio ≤ 15 ∧
    0 ≤ V38.pbr_points pbr ∧ V38.pbr_points pbr ≤ 15 ∧
    0 ≤ V38.ret_points return_5d ∧ V38.ret_points return_5d ≤ 10 ∧
    0 ≤ V38.reb_points rebound ∧ V38.reb_points rebound ≤ 10 := by
  refine ⟨?_, ?_, ?_, ?_, ?_, ?_, ?_, ?_, ?_, ?_, ?_, ?_⟩ <;>
    first
    | (cases rsi with
       | none => simp [V38.rsi_points]
       | some x => simp only [V38.rsi_points]; split_ifs <;> norm_num)
    | (cases disparity with
       | none => simp [V38.disp_points]
       | some x => simp only [V38.disp_points]; split_ifs <;> norm_num)
    | (cases volume_ratio with
       | none => simp [V38.vol_points]
       | some x => simp only [V38.vol_points]; split_ifs <;> norm_num)
    | (cases pbr with
       | none => simp [V38.pbr_points]
       | some x => simp only [V38.pbr_points]; split_ifs <;> norm_num)
    | (cases return_5d with
       | none => simp [V38.ret_points]
       | some x => simp only [V38.ret_points]; split_ifs <;> norm_num)
    | (cases rebound with
       | none => simp [V38.reb_points]
       | some x => simp only [V38.reb_points]; split_ifs <;> norm_num)

lemma v33_scores_bounds (rsi d v pbr : ℚ) :
    0 ≤ V33.calculate_rsi_score rsi ∧ V33.calculate_rsi_score rsi ≤ 30 ∧
    0 ≤ V33.calculate_disparity_score d ∧ V33.calculate_disparity_score d ≤ 25 ∧
    0 ≤ V33.calculate_volume_score v ∧ V33.calculate_volume_score v ≤ 25 ∧
    0 ≤ V33.calculate_pbr_score pbr ∧ V33.calculate_pbr_score pbr ≤ 20 := by
  refine ⟨?_, ?_, ?_, ?_, ?_, ?_, ?_, ?_⟩ <;>
    first
    | (simp only [V33.calculate_rsi_score]; split_ifs <;> norm_num)
    | (simp only [V33.calculate_disparity_score]; split_ifs <;> norm_num)
    | (simp only [V33.calculate_volume_score]; split_ifs <;> norm_num)
    | (simp only [V33.calculate_pbr_score]; split_ifs <;> norm_num)

end StockRec

namespace StockRec

/-- Claim C1 (amended).  In stock_swing_trading_v3.8.py the composite score
is exactly the sum of the six per-indicator components and lies in
[0, 100]; in tock_swing_trading_v3.3_complete.py the total is exactly the
sum of its four components (rsi, disparity, volume, pbr) and lies in
[0, 100]; in stock_swing_trading.py the stored score equals the
six-component sum only when disparity is at most 100 — above 100 the
disparity penalty is subtracted and the result clamped at 0 — and the
stored score always lies in [0, 100]. -/
theorem c1_total_vs_components :
    (∀ (rsi : Option ℚ) (d v : ℚ) (pbr : Option ℚ) (r5 rb : ℚ),
      (¬ 100 < d → Swing.total_score rsi d v pbr r5 rb =
        Swing.rsi_score rsi + Swing.disparity_score d + Swing.volume_score v +
          Swing.pbr_score pbr + Swing.returns_score r5 + Swing.rebound_score rb) ∧
      (100 < d → Swing.total_score rsi d v pbr r5 rb =
        max 0 (Swing.rsi_score rsi + Swing.disparity_score d + Swing.volume_score v +
          Swing.pbr_score pbr + Swing.returns_score r5 + Swing.rebound_score rb -
          Swing.penalty d)) ∧
      0 ≤ Swing.total_score rsi d v pbr r5 rb ∧
      Swing.total_score rsi d v pbr r5 rb ≤ 100) ∧
    (∀ (rsi d v pbr r5 rb : Option ℚ),
      (V38.calculate_score rsi d v pbr r5 rb).1 =
        (V38.calculate_score rsi d v pbr r5 rb).2.rsi_score +
        (V38.calculate_score rsi d v pbr r5 rb).2.disp_score +
        (V38.calculate_score rsi d v pbr r5 rb).2.vol_score +
        (V38.calculate_score rsi d v pbr r5 rb).2.pbr_score +
        (V38.calculate_score rsi d v pbr r5 rb).2.ret_score +
        (V38.calculate_score rsi d v pbr r5 rb).2.reb_score ∧
      0 ≤ (V38.calculate_score rsi d v pbr r5 rb).1 ∧
      (V38.calculate_score rsi d v pbr r5 rb).1 ≤ 100) ∧
    (∀ (rsi d v pbr : ℚ),
      V33.total_of rsi d v pbr =
        V33.calculate_rsi_score rsi + V33.calculate_disparity_score d +
          V33.calculate_volume_score v + V33.calculate_pbr_score pbr ∧
      0 ≤ V33.total_of rsi d v pbr ∧ V33.total_of rsi d v pbr ≤ 100) := by
  refine ⟨?_, ?_, ?_⟩
  · intro rsi d v pbr r5 rb
    have hb := total_score_bounds rsi d v pbr r5 rb
    refine ⟨?_, ?_, hb.1, hb.2⟩
    · intro h
      simp only [Swing.total_score, Swing.raw_total, if_neg h]
    · intro h
      simp only [Swing.total_score, Swing.raw_total, if_pos h]
  · intro rsi d v pbr r5 rb
    have hb := v38_points_bounds rsi d v pbr r5 rb
    refine ⟨rfl, ?_, ?_⟩ <;>
      · simp only [V38.calculate_score]
        omega
  · intro rsi d v pbr
    have hb := v33_scores_bounds rsi d v pbr
    refine ⟨rfl, ?_, ?_⟩ <;>
      · unfold V33.total_of
        obtain ⟨a1, a2, b1, b2, c1, c2, d1, d2⟩ := hb
        linarith

/-- Claim C1 counterexample.  In stock_swing_trading.py, at RSI 25,
disparity 105, volume ratio 2, no PBR, five-day return -3 and rebound 6,
the six components sum to 65 but the stored composite score is 55: the
disparity penalty (10 points for 5 percent above 100) breaks the equality
between total and component sum. -/
theorem c1_counterexample :
    Swing.rsi_score (some 25) + Swing.disparity_score 105 + Swing.volume_score 2 +
      Swing.pbr_score none + Swing.returns_score (-3) + Swing.rebound_score 6 = 65 ∧
    Swing.total_score (some 25) 105 2 none (-3) 6 = 55 ∧
    Swing.total_score (some 25) 105 2 none (-3) 6 ≠
      Swing.rsi_score (some 25) + Swing.disparity_score 105 + Swing.volume_score 2 +
        Swing.pbr_score none + Swing.returns_score (-3) + Swing.rebound_score 6 := by
  have h1 : Swing.rsi_score (some 25) = 30 := by
    simp only [Swing.rsi_score]
    norm_num
  have h2 : Swing.disparity_score 105 = 0 := by
    simp only [Swing.disparity_score]
    norm_num
  have h3 : Swing.volume_score 2 = 15 := by
    simp only [Swing.volume_score]
    norm_num
  have h4 : Swing.pbr_score none = 0 := by simp [Swing.pbr_score]
  have h5 : Swing.returns_score (-3) = 10 := by
    simp only [Swing.returns_score]
    norm_num
  have h6 : Swing.rebound_score 6 = 10 := by
    simp only [Swing.rebound_score]
    norm_num
  have hp : Swing.penalty 105 = 10 := by
    simp only [Swing.penalty]
    norm_num
  have ht : Swing.total_score (some 25) 105 2 none (-3) 6 = 55 := by
    simp only [Swing.total_score, Swing.raw_total, if_pos (by norm_num : (100:ℚ) < 105),
      h1, h2, h3, h4, h5, h6, hp]
    norm_num
  refine ⟨by rw [h1, h2, h3, h4, h5, h6]; norm_num, ht,
    by rw [ht, h1, h2, h3, h4, h5, h6]; norm_num⟩

end StockRec

namespace StockRec

/-- Claim C7.  A price history shorter than the minimum window makes the
per-instrument analysis return None before any scoring: in
stock_swing_trading.py fewer than 20 bars, and in
tock_swing_trading_v3.3_complete.py fewer than 30 bars, reject the
instrument regardless of fundamentals (market cap, PBR), so it cannot
enter the admitted set. -/
theorem c7_short_history_rejected :
    (∀ i : Swing.Input, i.bars.length < 20 → Swing.analyze_stock_worker i = none) ∧
    (∀ (bars : List Bar) (market_cap : ℤ) (pbr : ℚ), bars.length < 30 →
      V33.analyze_stock bars market_cap pbr = none) := by
  constructor
  · intro i h
    simp only [Swing.analyze_stock_worker, if_pos h]
  · intro bars mc pbr h
    simp only [V33.analyze_stock, if_pos h]

/-- Claim C7 witness: a 10-bar history with attractive fundamentals (large
market cap, PBR 1) is rejected by both variants. -/
theorem c7_short_history_rejected_witness :
    Swing.analyze_stock_worker
      { bars := List.replicate 10 ⟨100, 110, 90, 1000⟩, name_suspended := false,
        name_managed := false, equity := some 1000000, net_income := some 1000,
        shares := some 100 } = none ∧
    V33.analyze_stock (List.replicate 10 ⟨100, 110, 90, 1000⟩) 1000000000000 1 = none :=
  ⟨c7_short_history_rejected.1 _ (by simp),
   c7_short_history_rejected.2 _ 1000000000000 1 (by simp)⟩

/-- Claim C8 (amended).  When the 14-period average loss is zero and the
average gain is positive, both RSI variants return exactly 100 (the pandas
quotient gain/0.0 is inf and the RSI formula collapses to 100, no
division-by-zero error).  When the average gain is zero as well (a flat
window), the pandas quotient 0.0/0.0 is NaN: the v3.3 variant then falls
back to the neutral 50, and the v3.8 variant propagates the non-finite
value instead of 100. -/
theorem c8_zero_loss_rsi (closes : List ℚ) (hlen : 15 ≤ closes.length)
    (hloss : avgLoss closes = 0) :
    (avgGain closes ≠ 0 →
      V33.calculate_rsi closes = 100 ∧ V38.calculate_rsi closes = some 100) ∧
    (avgGain closes = 0 →
      V33.calculate_rsi closes = 50 ∧ V38.calculate_rsi closes = none) := by
  have hnot : ¬ closes.length < 15 := not_lt.mpr hlen
  constructor
  · intro hgain
    constructor
    · simp only [V33.calculate_rsi, pandasRSI, if_neg hnot, if_pos hloss, if_neg hgain,
        Option.getD_some]
    · simp only [V38.calculate_rsi, pandasRSI, if_neg hnot, if_pos hloss, if_neg hgain]
  · intro hgain
    constructor
    · simp only [V33.calculate_rsi, pandasRSI, if_neg hnot, if_pos hloss, if_pos hgain,
        Option.getD_none]
    · simp only [V38.calculate_rsi, pandasRSI, if_neg hnot, if_pos hloss, if_pos hgain]

/-- Claim C8 witness: on the strictly rising series 1..15 the average loss
is zero and both variants give RSI exactly 100. -/
theorem c8_zero_loss_rsi_witness :
    avgLoss [1,2,3,4,5,6,7,8,9,10,11,12,13,14,15] = 0 ∧
    V33.calculate_rsi [1,2,3,4,5,6,7,8,9,10,11,12,13,14,15] = 100 ∧
    V38.calculate_rsi [1,2,3,4,5,6,7,8,9,10,11,12,13,14,15] = some 100 := by
  have hloss : avgLoss [1,2,3,4,5,6,7,8,9,10,11,12,13,14,15] = 0 := by
    norm_num [avgLoss, lastN, diffs]
  have hgain : avgGain [1,2,3,4,5,6,7,8,9,10,11,12,13,14,15] ≠ 0 := by
    norm_num [avgGain, lastN, diffs]
  have h := (c8_zero_loss_rsi [1,2,3,4,5,6,7,8,9,10,11,12,13,14,15]
    (by norm_num) hloss).1 hgain
  exact ⟨hloss, h.1, h.2⟩

/-- Claim C8 counterexample: on a flat 15-point series the average loss is
zero, yet tock_swing_trading_v3.3_complete.py returns the neutral 50, not
100, and stock_swing_trading_v3.8.py returns a non-finite value (modelled
`none`), not 100. -/
theorem c8_counterexample :
    avgLoss (List.replicate 15 100) = 0 ∧
    V33.calculate_rsi (List.replicate 15 100) = 50 ∧
    V33.calculate_rsi (List.replicate 15 100) ≠ 100 ∧
    V38.calculate_rsi (List.replicate 15 100) = none ∧
    V38.calculate_rsi (List.replicate 15 100) ≠ some 100 := by
  have hloss : avgLoss (List.replicate 15 (100:ℚ)) = 0 := by
    norm_num [avgLoss, lastN, diffs, List.replicate]
  have hgain : avgGain (List.replicate 15 (100:ℚ)) = 0 := by
    norm_num [avgGain, lastN, diffs, List.replicate]
  have h := (c8_zero_loss_rsi (List.replicate 15 100) (by simp) hloss).2 hgain
  refine ⟨hloss, h.1, by rw [h.1]; norm_num, h.2, by rw [h.2]; simp⟩

/-- Claim C9 (amended).  When the trailing 20-period average volume is
zero, tock_swing_trading_v3.3_complete.py returns the neutral ratio 100
(explicit zero check); stock_swing_trading_v3.8.py has no such check and
its float quotient is non-finite (0.0/0.0 is NaN, since a zero long
average over nonnegative volumes forces a zero short average), modelled
`none` — not the neutral 100. -/
theorem c9_zero_volume_average (volumes : List ℚ) :
    (mean (lastN 20 volumes) = 0 → V33.calculate_volume_ratio volumes = 100) ∧
    (volumes ≠ [] → mean (lastN 20 volumes) = 0 →
      V38.calculate_volume_ratio volumes = none) := by
  constructor
  · intro h
    by_cases hl : volumes.length < 20
    · simp only [V33.calculate_volume_ratio, if_pos hl]
    · simp only [V33.calculate_volume_ratio, if_neg hl, if_pos h]
  · intro hne h
    simp only [V38.calculate_volume_ratio, if_neg hne, if_pos h]

/-- Claim C9 witness: 20 zero volumes give the neutral 100 in the v3.3
variant and a non-finite value in the v3.8 variant. -/
theorem c9_zero_volume_average_witness :
    V33.calculate_volume_ratio (List.replicate 20 0) = 100 ∧
    V38.calculate_volume_ratio (List.replicate 20 0) = none := by
  have hmean : mean (lastN 20 (List.replicate 20 (0:ℚ))) = 0 := by
    norm_num [mean, lastN, List.replicate]
  exact ⟨(c9_zero_volume_average (List.replicate 20 0)).1 hmean,
    (c9_zero_volume_average (List.replicate 20 0)).2 (by simp) hmean⟩

/-- Claim C9 counterexample: on 20 zero volumes the v3.8 variant does not
return the neutral 100 — its long trailing average is zero and the result
is the non-finite float (modelled `none`). -/
theorem c9_counterexample :
    mean (lastN 20 (List.replicate 20 (0:ℚ))) = 0 ∧
    V38.calculate_volume_ratio (List.replicate 20 0) = none ∧
    V38.calculate_volume_ratio (List.replicate 20 0) ≠ some 100 := by
  have hmean : mean (lastN 20 (List.replicate 20 (0:ℚ))) = 0 := by
    norm_num [mean, lastN, List.replicate]
  have h := (c9_zero_volume_average (List.replicate 20 0)).2 (by simp) hmean
  exact ⟨hmean, h, by rw [h]; simp⟩

end StockRec

namespace StockRec

/-- Claim C2 (amended).  A missing PBR contributes exactly zero points and
never rejects the instrument in stock_swing_trading.py (the worker still
returns a scored result, with a None PBR) and in stock_swing_trading_v3.8.py
(the PBR component of calculate_score is 0 for None).  In
stock_recommendation_complete.py, however, an empty fundamentals snapshot
makes calculate_technical_indicators return None: there the instrument IS
dropped from scoring. -/
theorem c2_missing_fundamentals :
    Swing.pbr_score none = 0 ∧
    V38.pbr_points none = 0 ∧
    (∀ i : Swing.Input, 20 ≤ i.bars.length → (i.equity = none ∨ i.shares = none) →
      ∃ r, Swing.analyze_stock_worker i = some r ∧ r.pbr = none) ∧
    (∀ (bars : List Bar) (market_cap : Option ℚ),
      RecComplete.calculate_technical_indicators bars none market_cap = none) := by
  refine ⟨rfl, rfl, ?_, ?_⟩
  · intro i h20 hmiss
    rcases hmiss with he | hs
    · simp only [Swing.analyze_stock_worker, if_neg (not_lt.mpr h20), he]
      exact ⟨_, rfl, rfl⟩
    · simp only [Swing.analyze_stock_worker, if_neg (not_lt.mpr h20), hs]
      cases he : i.equity with
      | none => exact ⟨_, rfl, rfl⟩
      | some e => exact ⟨_, rfl, rfl⟩
  · intro bars mc
    unfold RecComplete.calculate_technical_indicators
    split <;> rfl

/-- Claim C2 witness: a 20-bar history with no equity data is still scored
by the stock_swing_trading.py worker, with a None PBR. -/
theorem c2_missing_fundamentals_witness :
    ∃ r, Swing.analyze_stock_worker
      { bars := List.replicate 20 ⟨100, 110, 90, 10⟩, name_suspended := false,
        name_managed := false, equity := none, net_income := some 5,
        shares := some 3 } = some r ∧ r.pbr = none :=
  c2_missing_fundamentals.2.2.1 _ (by simp) (Or.inl rfl)

/-- Claim C2 counterexample: a perfectly healthy 20-bar history is dropped
by stock_recommendation_complete.py when the fundamentals snapshot is
empty — the absence of fundamentals does block scoring in that variant. -/
theorem c2_counterexample :
    RecComplete.calculate_technical_indicators
      (List.replicate 20 ⟨100, 110, 90, 10⟩) none (some 50000000000) = none := by
  unfold RecComplete.calculate_technical_indicators
  split <;> rfl

/-- Claim C3 (amended).  The risk tier is a pure, deterministic function of
the number of risk factors alone, identical across the two cited variants,
but with thresholds 0 maps to Low, exactly 1 maps to Medium, and 2 OR MORE
map to High (not 1-2 Medium with High from 3). -/
theorem c3_risk_tier :
    (∀ (market_cap current_price : ℤ) (closes : List ℚ),
      V33.assess_risk market_cap current_price closes =
        V33.risk_tier_of_count (V33.risk_factor_count market_cap current_price closes)) ∧
    (∀ n : ℕ,
      (V33.risk_tier_of_count n = .low ↔ n = 0) ∧
      (V33.risk_tier_of_count n = .medium ↔ n = 1) ∧
      (V33.risk_tier_of_count n = .high ↔ 2 ≤ n)) ∧
    (∀ n : ℕ, RecComplete.risk_level_of_count n = V33.risk_tier_of_count n) := by
  refine ⟨fun _ _ _ => rfl, ?_, ?_⟩
  · intro n
    rcases n with _ | _ | n <;>
      simp [V33.risk_tier_of_count]
  · intro n
    rcases n with _ | _ | n <;>
      simp [V33.risk_tier_of_count, RecComplete.risk_level_of_count]

/-- Claim C3 counterexample: a candidate with exactly 2 risk factors (small
market cap and low price, no surge) is rated High by assess_risk of
tock_swing_trading_v3.3_complete.py, where the claim predicts Medium for
1-2 factors. -/
theorem c3_counterexample :
    V33.risk_factor_count 0 1000 [] = 2 ∧
    V33.assess_risk 0 1000 [] = RiskLevel.high ∧
    V33.assess_risk 0 1000 [] ≠ RiskLevel.medium := by
  refine ⟨by decide, by decide, by decide⟩

end StockRec

namespace StockRec

lemma scoreDescLE_trans (a b c : Cand) (h1 : scoreDescLE a b) (h2 : scoreDescLE b c) :
    scoreDescLE a c := by
  simp only [scoreDescLE, decide_eq_true_eq] at *
  exact le_trans h2 h1

lemma scoreDescLE_total (a b : Cand) : scoreDescLE a b || scoreDescLE b a := by
  simp only [scoreDescLE, Bool.or_eq_true, decide_eq_true_eq]
  exact le_total b.score a.score

lemma swingLE_trans (a b c : Cand) (h1 : swingLE a b) (h2 : swingLE b c) :
    swingLE a c := by
  simp only [swingLE, decide_eq_true_eq] at *
  rcases h1 with h1 | ⟨he1, ht1⟩
  · rcases h2 with h2 | ⟨he2, ht2⟩
    · exact Or.inl (lt_trans h2 h1)
    · exact Or.inl (he2 ▸ h1)
  · rcases h2 with h2 | ⟨he2, ht2⟩
    · exact Or.inl (he1 ▸ h2)
    · exact Or.inr ⟨he1.trans he2, le_trans ht2 ht1⟩

lemma swingLE_total (a b : Cand) : swingLE a b || swingLE b a := by
  simp only [swingLE, Bool.or_eq_true, decide_eq_true_eq]
  rcases lt_trichotomy a.score b.score with h | h | h
  · exact Or.inr (Or.inl h)
  · rcases le_total a.trading_value b.trading_value with ht | ht
    · exact Or.inr (Or.inr ⟨h.symm, ht⟩)
    · exact Or.inl (Or.inr ⟨h, ht⟩)
  · exact Or.inl (Or.inl h)

lemma rsiAscLE_trans (a b c : Cand) (h1 : rsiAscLE a b) (h2 : rsiAscLE b c) :
    rsiAscLE a c := by
  simp only [rsiAscLE, decide_eq_true_eq] at *
  exact le_trans h1 h2

lemma rsiAscLE_total (a b : Cand) : rsiAscLE a b || rsiAscLE b a := by
  simp only [rsiAscLE, Bool.or_eq_true, decide_eq_true_eq]
  exact le_total a.rsi b.rsi

lemma disparityAscLE_trans (a b c : Cand) (h1 : disparityAscLE a b)
    (h2 : disparityAscLE b c) : disparityAscLE a c := by
  simp only [disparityAscLE, decide_eq_true_eq] at *
  exact le_trans h1 h2

lemma disparityAscLE_total (a b : Cand) : disparityAscLE a b || disparityAscLE b a := by
  simp only [disparityAscLE, Bool.or_eq_true, decide_eq_true_eq]
  exact le_total a.disparity b.disparity

lemma volumeDescLE_trans (a b c : Cand) (h1 : volumeDescLE a b)
    (h2 : volumeDescLE b c) : volumeDescLE a c := by
  simp only [volumeDescLE, decide_eq_true_eq] at *
  exact le_trans h2 h1

lemma volumeDescLE_total (a b : Cand) : volumeDescLE a b || volumeDescLE b a := by
  simp only [volumeDescLE, Bool.or_eq_true, decide_eq_true_eq]
  exact le_total b.volume_ratio a.volume_ratio

lemma reboundDescLE_trans (a b c : Cand) (h1 : reboundDescLE a b)
    (h2 : reboundDescLE b c) : reboundDescLE a c := by
  simp only [reboundDescLE, decide_eq_true_eq] at *
  exact le_trans h2 h1

lemma reboundDescLE_total (a b : Cand) : reboundDescLE a b || reboundDescLE b a := by
  simp only [reboundDescLE, Bool.or_eq_true, decide_eq_true_eq]
  exact le_total b.rebound_strength a.rebound_strength

lemma pbrAscLE_trans (a b c : Cand) (h1 : pbrAscLE a b) (h2 : pbrAscLE b c) :
    pbrAscLE a c := by
  simp only [pbrAscLE, decide_eq_true_eq] at *
  exact le_trans h1 h2

lemma pbrAscLE_total (a b : Cand) : pbrAscLE a b || pbrAscLE b a := by
  simp only [pbrAscLE, Bool.or_eq_true, decide_eq_true_eq]
  exact le_total (a.pbr.getD 0) (b.pbr.getD 0)

lemma mem_of_mem_take_mergeSort {le : Cand → Cand → Bool} {l : List Cand} {n : ℕ}
    {c : Cand} (h : c ∈ (l.mergeSort le).take n) : c ∈ l :=
  List.mem_mergeSort.mp (List.take_subset _ _ h)

lemma pairwise_take_mergeSort {le : Cand → Cand → Bool}
    (htrans : ∀ a b c : Cand, le a b → le b c → le a c)
    (htotal : ∀ a b : Cand, le a b || le b a) (l : List Cand) (n : ℕ) :
    List.Pairwise (fun a b => le a b = true) ((l.mergeSort le).take n) :=
  List.Pairwise.sublist (List.take_sublist n _)
    (List.sorted_mergeSort htrans htotal l)

end StockRec

namespace StockRec

/-- Claim C4 (amended).  In stock_swing_trading.py the Top-N is the first
30 of a stable sort by descending score with descending trading-value
tie-break, so its equal-score neighbours are ordered by descending
trading value.  In tock_swing_trading_v3.3_complete.py it is the first 30
of a stable sort by score alone, so equal-score neighbours keep their
input order, not trading-value order.  In stock_recommendation_complete.py
the pandas sort_values default quicksort fixes no tie order at all; every
admissible outcome of that sort still yields a Top-30 that is a subset of
the scanned set with non-increasing scores.  In all variants the Top-N is
a subset of its base set, has at most 30 elements, and is non-increasing
in score. -/
theorem c4_topn :
    (∀ l : List Cand,
      (∀ c ∈ Swing.top_stocks_of l, c ∈ l) ∧
      (Swing.top_stocks_of l).length ≤ 30 ∧
      List.Pairwise (fun x y : Cand => y.score ≤ x.score ∧
        (x.score = y.score → y.trading_value ≤ x.trading_value))
        (Swing.top_stocks_of l)) ∧
    (∀ l : List Cand,
      (∀ c ∈ (V33.select_recommendations l).1, c ∈ l) ∧
      ((V33.select_recommendations l).1).length ≤ 30 ∧
      List.Pairwise (fun x y : Cand => y.score ≤ x.score)
        ((V33.select_recommendations l).1)) ∧
    (∀ l out : List Cand, RecComplete.sort_values_desc l out →
      (∀ c ∈ out.take 30, c ∈ l) ∧
      (out.take 30).length ≤ 30 ∧
      List.Pairwise (fun x y : Cand => y.score ≤ x.score) (out.take 30)) := by
  have hdesc : ∀ l : List Cand,
      List.Pairwise (fun x y : Cand => y.score ≤ x.score)
        ((l.mergeSort scoreDescLE).take 30) := by
    intro l
    refine (pairwise_take_mergeSort scoreDescLE_trans scoreDescLE_total l 30).imp ?_
    intro x y h
    simpa [scoreDescLE] using h
  refine ⟨?_, ?_, ?_⟩
  · intro l
    refine ⟨fun c hc => mem_of_mem_take_mergeSort hc, List.length_take_le _ _, ?_⟩
    refine (pairwise_take_mergeSort swingLE_trans swingLE_total l 30).imp ?_
    intro x y h
    simp only [swingLE, decide_eq_true_eq] at h
    rcases h with h | ⟨he, ht⟩
    · exact ⟨le_of_lt h, fun heq => absurd h (by rw [heq]; exact lt_irrefl _)⟩
    · exact ⟨le_of_eq he.symm, fun _ => ht⟩
  · intro l
    exact ⟨fun c hc => mem_of_mem_take_mergeSort hc, List.length_take_le _ _, hdesc l⟩
  · intro l out h
    exact ⟨fun c hc => h.1.subset (List.take_subset _ _ hc), List.length_take_le _ _,
      List.Pairwise.sublist (List.take_sublist 30 out) h.2⟩

/-- Claim C4 witness: a concrete admissible outcome of the relational
sort_values model — the two-candidate scan re-ordered by descending score
— satisfies the hypothesis, and the theorem yields the subset and
non-increasing-score facts for its Top-30. -/
theorem c4_topn_witness :
    RecComplete.sort_values_desc [mkC 0 50 1 10 0, mkC 1 60 2 10 0]
      [mkC 1 60 2 10 0, mkC 0 50 1 10 0] ∧
    (∀ c ∈ ([mkC 1 60 2 10 0, mkC 0 50 1 10 0] : List Cand).take 30,
      c ∈ [mkC 0 50 1 10 0, mkC 1 60 2 10 0]) ∧
    List.Pairwise (fun x y : Cand => y.score ≤ x.score)
      (([mkC 1 60 2 10 0, mkC 0 50 1 10 0] : List Cand).take 30) := by
  have h : RecComplete.sort_values_desc [mkC 0 50 1 10 0, mkC 1 60 2 10 0]
      [mkC 1 60 2 10 0, mkC 0 50 1 10 0] :=
    ⟨List.Perm.swap (mkC 0 50 1 10 0) (mkC 1 60 2 10 0) [], by decide⟩
  have hc := c4_topn.2.2 _ _ h
  exact ⟨h, hc.1, hc.2.2⟩

/-- Claim C4 counterexample.  Two admitted candidates with equal score 50
and trading values 1 and 2, given in ascending trading-value order, come
out of select_recommendations of tock_swing_trading_v3.3_complete.py in
unchanged order: the equal-score neighbours are NOT ordered by descending
trading value, because that variant has no trading-value tie-break. -/
theorem c4_counterexample :
    (V33.select_recommendations [mkC 0 50 1 10 0, mkC 1 50 2 10 0]).1 =
      [mkC 0 50 1 10 0, mkC 1 50 2 10 0] ∧
    (mkC 0 50 1 10 0).score = (mkC 1 50 2 10 0).score ∧
    (mkC 0 50 1 10 0).trading_value < (mkC 1 50 2 10 0).trading_value ∧
    ¬ List.Pairwise (fun x y : Cand => x.score = y.score → y.trading_value ≤ x.trading_value)
      ((V33.select_recommendations [mkC 0 50 1 10 0, mkC 1 50 2 10 0]).1) := by
  have hsort : ([mkC 0 50 1 10 0, mkC 1 50 2 10 0].mergeSort scoreDescLE) =
      [mkC 0 50 1 10 0, mkC 1 50 2 10 0] :=
    List.mergeSort_of_sorted (by decide)
  have htop : (V33.select_recommendations [mkC 0 50 1 10 0, mkC 1 50 2 10 0]).1 =
      [mkC 0 50 1 10 0, mkC 1 50 2 10 0] := by
    show ([mkC 0 50 1 10 0, mkC 1 50 2 10 0].mergeSort scoreDescLE).take V33.TARGET_COUNT =
      [mkC 0 50 1 10 0, mkC 1 50 2 10 0]
    rw [hsort]
    rfl
  refine ⟨htop, by decide, by decide, ?_⟩
  rw [htop]
  intro hp
  have := List.rel_of_pairwise_cons hp (List.mem_singleton.mpr rfl)
  revert this
  decide

end StockRec

namespace StockRec

/-- Claim C5 (amended).  Each leaderboard is an initial segment (at most 5
entries) of a stable sort of its base list in the documented direction —
ascending for RSI, disparity and PBR, descending for volume ratio and
rebound strength — and the PBR leaderboard alone is restricted to
candidates with a present (truthy) PBR, the other leaderboards drawing
from the full base list.  In stock_recommendation_complete.py the base
list is the entire scanned set, but in stock_swing_trading.py the base
list handed to generate_html is the Top-30 of main, NOT the full admitted
pool. -/
theorem c5_leaderboards :
    (∀ ts : List Cand,
      (∀ c ∈ Swing.rsi_top5 ts, c ∈ ts) ∧
      List.Pairwise (fun x y : Cand => x.rsi ≤ y.rsi) (Swing.rsi_top5 ts) ∧
      (∀ c ∈ Swing.disparity_top5 ts, c ∈ ts) ∧
      List.Pairwise (fun x y : Cand => x.disparity ≤ y.disparity)
        (Swing.disparity_top5 ts) ∧
      (∀ c ∈ Swing.volume_top5 ts, c ∈ ts) ∧
      List.Pairwise (fun x y : Cand => y.volume_ratio ≤ x.volume_ratio)
        (Swing.volume_top5 ts) ∧
      (∀ c ∈ Swing.rebound_top5 ts, c ∈ ts) ∧
      List.Pairwise (fun x y : Cand => y.rebound_strength ≤ x.rebound_strength)
        (Swing.rebound_top5 ts) ∧
      (∀ c ∈ Swing.pbr_top5 ts, c ∈ ts ∧ truthy c.pbr) ∧
      List.Pairwise (fun x y : Cand => x.pbr.getD 0 ≤ y.pbr.getD 0)
        (Swing.pbr_top5 ts) ∧
      (∀ c ∈ ts, ¬ truthy c.pbr → c ∉ Swing.pbr_top5 ts)) ∧
    (∀ df : List Cand,
      (∀ c ∈ RecComplete.rsi_top5 df, c ∈ df) ∧
      List.Pairwise (fun x y : Cand => x.rsi ≤ y.rsi) (RecComplete.rsi_top5 df) ∧
      (∀ c ∈ RecComplete.disparity_top5 df, c ∈ df) ∧
      List.Pairwise (fun x y : Cand => x.disparity ≤ y.disparity)
        (RecComplete.disparity_top5 df) ∧
      (∀ c ∈ RecComplete.volume_top5 df, c ∈ df) ∧
      List.Pairwise (fun x y : Cand => y.volume_ratio ≤ x.volume_ratio)
        (RecComplete.volume_top5 df)) := by
  constructor
  · intro ts
    refine ⟨fun c hc => mem_of_mem_take_mergeSort hc,
      (pairwise_take_mergeSort rsiAscLE_trans rsiAscLE_total ts 5).imp
        (fun {x y} h => by simpa [rsiAscLE] using h),
      fun c hc => mem_of_mem_take_mergeSort hc,
      (pairwise_take_mergeSort disparityAscLE_trans disparityAscLE_total ts 5).imp
        (fun {x y} h => by simpa [disparityAscLE] using h),
      fun c hc => mem_of_mem_take_mergeSort hc,
      (pairwise_take_mergeSort volumeDescLE_trans volumeDescLE_total ts 5).imp
        (fun {x y} h => by simpa [volumeDescLE] using h),
      fun c hc => mem_of_mem_take_mergeSort hc,
      (pairwise_take_mergeSort reboundDescLE_trans reboundDescLE_total ts 5).imp
        (fun {x y} h => by simpa [reboundDescLE] using h),
      ?_,
      (pairwise_take_mergeSort pbrAscLE_trans pbrAscLE_total _ 5).imp
        (fun {x y} h => by simpa [pbrAscLE] using h),
      ?_⟩
    · intro c hc
      have hm := mem_of_mem_take_mergeSort hc
      have := List.mem_filter.mp hm
      exact ⟨this.1, this.2⟩
    · intro c _ hnp hc
      have hm := mem_of_mem_take_mergeSort hc
      exact hnp (List.mem_filter.mp hm).2
  · intro df
    exact ⟨fun c hc => mem_of_mem_take_mergeSort hc,
      (pairwise_take_mergeSort rsiAscLE_trans rsiAscLE_total df 5).imp
        (fun {x y} h => by simpa [rsiAscLE] using h),
      fun c hc => mem_of_mem_take_mergeSort hc,
      (pairwise_take_mergeSort disparityAscLE_trans disparityAscLE_total df 5).imp
        (fun {x y} h => by simpa [disparityAscLE] using h),
      fun c hc => mem_of_mem_take_mergeSort hc,
      (pairwise_take_mergeSort volumeDescLE_trans volumeDescLE_total df 5).imp
        (fun {x y} h => by simpa [volumeDescLE] using h)⟩

/-- Claim C5 counterexample.  In the 31-candidate admitted pool c5_list the
candidate with id 30 has the strictly smallest RSI of the whole pool, yet
the RSI leaderboard of stock_swing_trading.py misses it: generate_html
receives only the Top-30 of main, the id-30 candidate has the lowest score
and is cut from the Top-30, so the leaderboard is computed over the Top-30
subset and not over the entire admitted set. -/
theorem c5_counterexample :
    mkC 30 1 0 0 0 ∈ c5_list ∧
    (∀ c ∈ c5_list, c ≠ mkC 30 1 0 0 0 → (mkC 30 1 0 0 0).rsi < c.rsi) ∧
    Swing.rsi_top5 (Swing.top_stocks_of c5_list) =
      [mkC 0 100 0 1 0, mkC 1 99 0 2 0, mkC 2 98 0 3 0, mkC 3 97 0 4 0, mkC 4 96 0 5 0] ∧
    mkC 30 1 0 0 0 ∉ Swing.rsi_top5 (Swing.top_stocks_of c5_list) := by
  have h1 : c5_list.mergeSort swingLE = c5_list :=
    List.mergeSort_of_sorted (by decide)
  have htop : Swing.top_stocks_of c5_list = c5_list.take 30 := by
    show (c5_list.mergeSort swingLE).take 30 = c5_list.take 30
    rw [h1]
  have h2 : (c5_list.take 30).mergeSort rsiAscLE = c5_list.take 30 :=
    List.mergeSort_of_sorted (by decide)
  have htop5 : Swing.rsi_top5 (Swing.top_stocks_of c5_list) =
      [mkC 0 100 0 1 0, mkC 1 99 0 2 0, mkC 2 98 0 3 0, mkC 3 97 0 4 0, mkC 4 96 0 5 0] := by
    rw [Swing.rsi_top5, htop, h2]
    decide
  refine ⟨by decide, by decide, htop5, ?_⟩
  rw [htop5]
  decide

end StockRec

namespace StockRec

lemma nodup_take_mergeSort {le : Cand → Cand → Bool} {l : List Cand} (h : l.Nodup)
    (n : ℕ) : ((l.mergeSort le).take n).Nodup :=
  List.Nodup.sublist (List.take_sublist n _) ((List.mergeSort_perm l le).symm.nodup h)

/-- Claim C6.  The investor-profile groups of generate_html in
stock_swing_trading.py never contain the same candidate twice: when the
primary selection of a group is short, the backfill filter excludes both
the other risk band and every candidate already chosen (`s not in ...`),
so the concatenated final list is duplicate-free whenever the incoming
Top-30 list is.  The construction is a pure function of the input list,
hence deterministic. -/
theorem c6_no_duplicates (ts : List Cand) (h : ts.Nodup) :
    (Swing.conservative_stocks ts).Nodup ∧ (Swing.balanced_stocks ts).Nodup ∧
    (Swing.aggressive_stocks ts).Nodup := by
  have h30 : (ts.take 30).Nodup := List.Nodup.sublist (List.take_sublist 30 ts) h
  refine ⟨?_, ?_, nodup_take_mergeSort h30 5⟩
  · simp only [Swing.conservative_stocks]
    split
    · refine List.Nodup.append (nodup_take_mergeSort (h30.filter _) 5)
        (nodup_take_mergeSort (h30.filter _) _) ?_
      intro a ha hb
      have hm := mem_of_mem_take_mergeSort hb
      have := (List.mem_filter.mp hm).2
      simp only [decide_eq_true_eq] at this
      exact this.2.2 ha
    · exact nodup_take_mergeSort (h30.filter _) 5
  · simp only [Swing.balanced_stocks]
    split
    · refine List.Nodup.append (nodup_take_mergeSort (h30.filter _) 5)
        (nodup_take_mergeSort (h30.filter _) _) ?_
      intro a ha hb
      have hm := mem_of_mem_take_mergeSort hb
      have := (List.mem_filter.mp hm).2
      simp only [decide_eq_true_eq] at this
      exact this.2 ha
    · exact nodup_take_mergeSort (h30.filter _) 5

/-- Claim C6 witness: a Top-30 of two candidates, one medium-risk with the
higher score and one low-risk, forces the conservative group to backfill
from the medium band; the resulting group [low-risk, medium-risk] is
duplicate-free. -/
theorem c6_no_duplicates_witness :
    ([mkC 0 80 0 0 35, mkC 1 70 0 0 10] : List Cand).Nodup ∧
    (Swing.conservative_stocks [mkC 0 80 0 0 35, mkC 1 70 0 0 10]).Nodup ∧
    Swing.conservative_stocks [mkC 0 80 0 0 35, mkC 1 70 0 0 10] =
      [mkC 1 70 0 0 10, mkC 0 80 0 0 35] := by
  have hnd : ([mkC 0 80 0 0 35, mkC 1 70 0 0 10] : List Cand).Nodup := by decide
  refine ⟨hnd, (c6_no_duplicates _ hnd).1, ?_⟩
  simp only [Swing.conservative_stocks]
  norm_num [List.filter, mkC, List.mergeSort_singleton]

end StockRec

namespace StockRec

lemma count_filter_eq (a : Cand) (p : Cand → Bool) (l : List Cand) :
    List.count a (l.filter p) = if p a then List.count a l else 0 := by
  split
  · exact List.count_filter (by assumption)
  · exact List.count_eq_zero.mpr (fun hm => by
      have := (List.mem_filter.mp hm).2
      simp_all)

lemma perm_filter_four (l : List Cand) (p1 p2 p3 p4 : Cand → Bool)
    (h : ∀ x : Cand, ((if p1 x then 1 else 0) + (if p2 x then 1 else 0) +
      (if p3 x then 1 else 0) + (if p4 x then 1 else 0) : ℕ) = 1) :
    List.Perm (l.filter p1 ++ (l.filter p2 ++ (l.filter p3 ++ l.filter p4))) l := by
  rw [List.perm_iff_count]
  intro a
  simp only [List.count_append, count_filter_eq]
  have := h a
  by_cases h1 : p1 a <;> by_cases h2 : p2 a <;> by_cases h3 : p3 a <;>
    by_cases h4 : p4 a <;> simp_all

/-- Claim C10.  The four groups returned by select_recommendations of
tock_swing_trading_v3.3_complete.py — high_score (at least 70),
medium_score (60 to below 70), conservative (below 60, low risk) and
aggressive (below 60, non-low risk) — are pairwise disjoint, every Top-30
member lies in at least one of them, and their concatenation is a
permutation of the Top-30 list, so each Top-30 candidate appears in
exactly one group. -/
theorem c10_partition (l : List Cand) :
    List.Perm ((V33.select_recommendations l).2.1 ++
      ((V33.select_recommendations l).2.2.1 ++
        ((V33.select_recommendations l).2.2.2.1 ++
          (V33.select_recommendations l).2.2.2.2)))
      (V33.select_recommendations l).1 ∧
    (∀ c ∈ (V33.select_recommendations l).1,
      c ∈ (V33.select_recommendations l).2.1 ∨
      c ∈ (V33.select_recommendations l).2.2.1 ∨
      c ∈ (V33.select_recommendations l).2.2.2.1 ∨
      c ∈ (V33.select_recommendations l).2.2.2.2) ∧
    (∀ c : Cand,
      (c ∈ (V33.select_recommendations l).2.1 →
        c ∉ (V33.select_recommendations l).2.2.1 ∧
        c ∉ (V33.select_recommendations l).2.2.2.1 ∧
        c ∉ (V33.select_recommendations l).2.2.2.2) ∧
      (c ∈ (V33.select_recommendations l).2.2.1 →
        c ∉ (V33.select_recommendations l).2.2.2.1 ∧
        c ∉ (V33.select_recommendations l).2.2.2.2) ∧
      (c ∈ (V33.select_recommendations l).2.2.2.1 →
        c ∉ (V33.select_recommendations l).2.2.2.2)) := by
  have hone : ∀ x : Cand,
      ((if (decide (70 ≤ x.score)) then 1 else 0) +
       (if (decide (60 ≤ x.score ∧ x.score < 70)) then 1 else 0) +
       (if (decide (x.score < 60 ∧ x.risk_level = RiskLevel.low)) then 1 else 0) +
       (if (decide (x.score < 60 ∧ x.risk_level ≠ RiskLevel.low)) then 1 else 0) : ℕ) = 1 := by
    intro x
    rcases lt_or_le x.score 60 with hA | hA
    · have h70 : ¬ (70:ℚ) ≤ x.score := by intro hc; linarith
      have h67 : ¬ ((60:ℚ) ≤ x.score ∧ x.score < 70) := by
        rintro ⟨hc, -⟩; linarith
      by_cases hr : x.risk_level = RiskLevel.low <;> simp [h70, h67, hA, hr]
    · have hA2 : ¬ x.score < 60 := not_lt.mpr hA
      rcases lt_or_le x.score 70 with hB | hB
      · have h70 : ¬ (70:ℚ) ≤ x.score := not_le.mpr hB
        simp [h70, hA, hB, hA2]
      · have h67 : ¬ ((60:ℚ) ≤ x.score ∧ x.score < 70) := by
          rintro ⟨-, hc⟩; linarith
        simp [hB, h67, hA2]
  have hperm : List.Perm ((V33.select_recommendations l).2.1 ++
      ((V33.select_recommendations l).2.2.1 ++
        ((V33.select_recommendations l).2.2.2.1 ++
          (V33.select_recommendations l).2.2.2.2)))
      (V33.select_recommendations l).1 :=
    perm_filter_four _ _ _ _ _ hone
  refine ⟨hperm, ?_, ?_⟩
  · intro c hc
    have := hperm.symm.subset hc
    simpa [List.mem_append, or_assoc] using this
  · intro c
    refine ⟨fun h1 => ⟨?_, ?_, ?_⟩, fun h2 => ⟨?_, ?_⟩, fun h3 => ?_⟩ <;>
      intro hm <;>
      first
      | (have ha := (List.mem_filter.mp h1).2
         have hb := (List.mem_filter.mp hm).2
         simp only [decide_eq_true_eq] at ha hb
         linarith [hb.2, ha])
      | (have ha := (List.mem_filter.mp h2).2
         have hb := (List.mem_filter.mp hm).2
         simp only [decide_eq_true_eq] at ha hb
         linarith [ha.1, hb.1])
      | (have ha := (List.mem_filter.mp h3).2
         have hb := (List.mem_filter.mp hm).2
         simp only [decide_eq_true_eq] at ha hb
         exact hb.2 ha.2)

end StockRec
